import Mathlib

set_option maxHeartbeats 1000000

/-!
Verification development for the byom-demo repository.

The repository contains two Adobe I/O Runtime actions:

* the webhook action (`actions/webhook/index.js`, present in two agreeing
  revisions in the sources), which orchestrates a preview → publish pipeline
  against the Helix admin API, and
* the data-provider action (`actions/data-provider/index.js`), which renders
  an HTML user-profile page for overlay paths under `/byom-page`.

This file shallowly embeds both actions.  Outbound `fetch` calls are replaced
by explicit outcome values (an oracle mapping the index of each call to its
outcome), `Date.now()` by an explicit clock value, and the Handlebars
template, locale date formatter and current ISO timestamp of the renderer by
explicit collaborator parameters.  JavaScript string-or-undefined values are
modelled as `Option String`, with the empty string falsy, matching the `||`
and `if (x)` tests the source performs on them.
-/

namespace ByomDemo

/-- Empty string constant, used where the source relies on JavaScript
falsiness of the empty string. -/
def emptyStr : String := ""

/-- Truthiness of a JavaScript string-or-undefined value: `undefined` and the
empty string are falsy, every other string is truthy. -/
def jsTruthy : Option String → Bool
  | none => false
  | some s => s != ""

/-- JavaScript `a || b` on string-or-undefined values: returns `a` when it is
truthy and `b` otherwise (even when `b` is itself falsy). -/
def jsOr (a b : Option String) : Option String :=
  if jsTruthy a then a else b

/-- JavaScript `a || b` on plain strings (used for `error.message || ...` and
`user.id.name || ...`). -/
def jsOrStr (a b : String) : String :=
  if a != "" then a else b

/-- String interpolation of a string-or-undefined value: JavaScript renders
`undefined` as the literal text `undefined`. -/
def jsShow : Option String → String
  | none => "undefined"
  | some s => s

/-- Parsed JSON values, as far as the webhook action inspects them.  JSON
numbers that matter here are HTTP status codes, so they are modelled as `Int`;
the `typeof v === 'number'` guard of the source corresponds to matching the
`num` constructor. -/
inductive Js where
  | null
  | bool (b : Bool)
  | num (n : Int)
  | str (s : String)
  | arr (elems : List Js)
  | obj (fields : List (String × Js))

/-- Property access `j.key` on a JSON value: defined only on objects, any
other shape yields `undefined` (modelled as `none`, as optional chaining in
the source never throws on non-objects). -/
def jsField (j : Js) (key : String) : Option Js :=
  match j with
  | Js.obj fields => (fields.find? (fun p => p.fst == key)).map Prod.snd
  | _ => none

/-- Optional chaining `v?.key` on a possibly-undefined JSON value. -/
def optField (v : Option Js) (key : String) : Option Js :=
  v.bind (fun j => jsField j key)

/-- The `typeof v === 'number'` guard of the source: yields the numeric value
when the JSON value is present and a number, and `none` otherwise. -/
def numericValue : Option Js → Option Int
  | some (Js.num n) => some n
  | _ => none

/-- Environment tag of admin-API preview calls (also the key of the nested
payload field the webhook inspects). -/
def previewEnv : String := "preview"

/-- Environment tag of admin-API live (publish) calls. -/
def liveEnv : String := "live"

/-- The `action` argument value used for all calls made by `main` (the
`delete` value of the same primitive is never used in this flow). -/
def publishAction : String := "publish"

/-- Key of the nested status field inside the preview payload. -/
def statusKey : String := "status"

/-- Base URL of the Helix admin service. -/
def adminHost : String := "https://admin.hlx.page/"

/-- Scheme prepended to the admin token in the authorization header. -/
def tokenScheme : String := "token "

/-- Leading path separator. -/
def slashStr : String := "/"

/-- Generic message returned by `errorResponse` on unexpected exceptions. -/
def serverErrorMsg : String := "server error"

/-- The nested `payload?.preview?.status` field of an admin-API payload,
restricted by the source's `typeof previewStatus === 'number'` guard
(`actions/webhook/index.js`). -/
def previewStatusField (payload : Option Js) : Option Int :=
  numericValue (optField (optField payload previewEnv) statusKey)

/-- The nested numeric preview status actually consulted for a call: the
source only reads `payload?.preview?.status` when `uriEnv === 'preview'`. -/
def previewStatusFor (uriEnv : String) (payload : Option Js) : Option Int :=
  if uriEnv == previewEnv then previewStatusField payload else none

/-- Outcome of one `fetch` call as observed by `processEvent`:
either the promise rejected (`threw`, e.g. connection failure), or a response
arrived with its `ok` flag, numeric `status`, `statusText` and parsed JSON
body.  `payload = none` models `res.json()` throwing (empty body), which the
source tolerates. -/
inductive FetchOutcome where
  | threw
  | response (ok : Bool) (status : Nat) (statusText : String) (payload : Option Js)

/-- Return value of `processEvent`: the source returns an object whose
optional fields differ per branch (`status`/`statusText` are absent in the
catch branch, `body` is absent in the non-ok branch; the `error` object of
the catch branch is dropped as nothing reads it). -/
structure EventResult where
  success : Bool
  status : Option Nat
  statusText : Option String
  body : Option Js

/-- The outbound request `processEvent` assembles before fetching: URL,
method, and the two headers the source sets
(`actions/webhook/index.js`, `processEvent`). -/
structure RequestSpec where
  url : String
  method : String
  authorizationHeader : String
  xContentSourceLocation : Option String
deriving DecidableEq

/-- One outbound admin-API call, tagged with its environment. -/
structure Call where
  uriEnv : String
  request : RequestSpec
deriving DecidableEq

/-- Translation of the request-construction part of `processEvent`:
`url = https://admin.hlx.page/<uriEnv>/<projectCoords><path>`, method POST for
the publish action and DELETE otherwise, header
`authorization: token <token>`, and the `x-content-source-location` header set
to the nationality exactly when that value is truthy. -/
def processEventRequest (token uriEnv projectCoords path action : String)
    (nationality : Option String) : RequestSpec :=
  { url := adminHost ++ uriEnv ++ slashStr ++ projectCoords ++ path
    method := if action == publishAction then ("POST") else ("DELETE")
    authorizationHeader := tokenScheme ++ token
    xContentSourceLocation := if jsTruthy nationality then nationality else none }

/-- Translation of `processEvent` from `actions/webhook/index.js` (identical
in both revisions of the file).  A thrown fetch is caught and reported as a
failure without a status; a non-ok response reports failure with the
transport status; an ok response is successful, except that for the preview
environment a numeric nested `preview.status` field, when present, must equal
200.  The request it issues is `processEventRequest` on the same arguments;
callers record that request in the call trace. -/
def processEvent (uriEnv : String) (outcome : FetchOutcome) : EventResult :=
  match outcome with
  | FetchOutcome.threw =>
      { success := false, status := none, statusText := none, body := none }
  | FetchOutcome.response ok status statusText payload =>
      if ok then
        match previewStatusFor uriEnv payload with
        | some n =>
            { success := n == 200, status := some status, statusText := none, body := payload }
        | none =>
            { success := true, status := some status, statusText := none, body := payload }
      else
        { success := false, status := some status, statusText := some statusText, body := none }

/-- Body of an error-shaped response. -/
structure ErrorBody where
  error : String
deriving DecidableEq

/-- Error-shaped action response. -/
structure ErrorShape where
  statusCode : Nat
  body : ErrorBody
deriving DecidableEq

/-- Modelled from the spec: the shared helper `errorResponse` lives in
`actions/utils.js`, which is absent from the sources (only its unit test and
its callers are present).  Per spec §6 and the unit test it returns
`\x7berror: \x7bstatusCode, body: \x7berror: message\x7d\x7d\x7d` and logs the
message; logging is not modelled. -/
def errorResponse (statusCode : Nat) (message : String) : ErrorShape :=
  { statusCode := statusCode, body := { error := message } }

/-- One entry of the `previewAttempts` list pushed by `main`:
`\x7b attempt: attemptNumber, success: result.success, status: result.status \x7d`. -/
structure AttemptRecord where
  attempt : Nat
  success : Bool
  status : Option Nat
deriving DecidableEq

/-- The attempt entry built from one `processEvent` result. -/
def attemptEntry (n : Nat) (r : EventResult) : AttemptRecord :=
  { attempt := n, success := r.success, status := r.status }

/-- Successful-completion body returned by `main` after validation passes. -/
structure WebhookBody where
  previewSuccessful : Bool
  publishSuccessful : Bool
  previewAttempts : List AttemptRecord
  pagePath : String
deriving DecidableEq

/-- Full response of the webhook action: either the structured completion
body with its status code, or an error-shaped response from `errorResponse`. -/
inductive WebhookResult where
  | response (statusCode : Nat) (body : WebhookBody)
  | errorShaped (e : ErrorShape)
deriving DecidableEq

/-- Direct action parameters of the webhook action (the fields `main`
reads; each is a string or undefined). -/
structure WebhookParams where
  PROJECT_COORDS : Option String
  TOKEN : Option String
  NATIONALITY : Option String
  nationality : Option String
deriving DecidableEq

/-- Fields of the decoded JSON request body.  `main` only ever reads the two
nationality fields; the coordinate and token fields are carried so that their
being ignored can be stated.  An absent or unparsable body corresponds to all
fields `none` (`bodyParams = \x7b\x7d` in the source). -/
structure BodyParams where
  PROJECT_COORDS : Option String
  TOKEN : Option String
  NATIONALITY : Option String
  nationality : Option String
deriving DecidableEq

/-- Process-wide fallback values (`process.env`). -/
structure ProcessEnv where
  PROJECT_COORDS : Option String
  TOKEN : Option String
deriving DecidableEq

/-- `params.PROJECT_COORDS || process.env.PROJECT_COORDS`. -/
def resolveProjectCoords (params : WebhookParams) (env : ProcessEnv) : Option String :=
  jsOr params.PROJECT_COORDS env.PROJECT_COORDS

/-- `params.TOKEN || process.env.TOKEN`. -/
def resolveToken (params : WebhookParams) (env : ProcessEnv) : Option String :=
  jsOr params.TOKEN env.TOKEN

/-- `bodyParams.NATIONALITY || bodyParams.nationality || params.NATIONALITY ||
params.nationality`. -/
def resolveNationality (bodyParams : BodyParams) (params : WebhookParams) : Option String :=
  jsOr bodyParams.NATIONALITY
    (jsOr bodyParams.nationality (jsOr params.NATIONALITY params.nationality))

/-- Name of the coordinates parameter as reported in validation errors. -/
def projectCoordsName : String := "PROJECT_COORDS"

/-- Name of the token parameter as reported in validation errors. -/
def tokenName : String := "TOKEN"

/-- The `missingFields` list `main` accumulates before validation. -/
def missingFields (params : WebhookParams) (env : ProcessEnv) : List String :=
  (if jsTruthy (resolveProjectCoords params env) then [] else [projectCoordsName]) ++
    (if jsTruthy (resolveToken params env) then [] else [tokenName])

/-- Single quote character, spelled via its code point. -/
def squote : String := String.mk [Char.ofNat 39]

/-- The validation error message
`missing parameter(s) <quoted comma-separated names>`. -/
def missingMsg (missing : List String) : String :=
  "missing parameter(s) " ++ squote ++ String.intercalate (", ") missing ++ squote

/-- Whether `main`'s validation passes: both resolved values truthy. -/
def passesValidation (params : WebhookParams) (env : ProcessEnv) : Bool :=
  jsTruthy (resolveProjectCoords params env) && jsTruthy (resolveToken params env)

/-- `generatePagePath`: `/byom-page/<Date.now()>`, with the clock value passed
explicitly. -/
def generatePagePath (now : Nat) : String :=
  "/byom-page/" ++ toString now

/-- Retry bound of the preview loop. -/
def MAX_PREVIEW_ATTEMPTS : Nat := 3

/-- The preview retry loop of `main`: starting at attempt index `attempt`
with `fuel` iterations left, call `processEvent` once per iteration, record
one attempt entry per call in order, and stop as soon as a call succeeds.
Returns the attempt entries, the `previewSuccessful` flag, and the calls
made.  The oracle is indexed by the position of the call in the run. -/
def previewLoop (token projectCoords pagePath : String) (nationality : Option String)
    (oracle : Nat → FetchOutcome) (attempt fuel : Nat) :
    List AttemptRecord × Bool × List Call :=
  match fuel with
  | 0 => ([], false, [])
  | Nat.succ fuel =>
    let step := processEvent previewEnv (oracle attempt)
    let call : Call :=
      { uriEnv := previewEnv
        request := processEventRequest token previewEnv projectCoords pagePath
          publishAction nationality }
    let entry := attemptEntry (attempt + 1) step
    if step.success then
      ([entry], true, [call])
    else
      let rest := previewLoop token projectCoords pagePath nationality oracle
        (attempt + 1) fuel
      (entry :: rest.fst, rest.snd.fst, call :: rest.snd.snd)

/-- Observable outcome of one webhook invocation: its response and the
outbound admin-API calls it made, in order. -/
structure MainOutcome where
  response : WebhookResult
  calls : List Call
deriving DecidableEq

/-- Translation of `main` from `actions/webhook/index.js`.  Both revisions of
the file agree on everything observable here (one generates the page path
just before validation instead of just after; `generatePagePath` is pure in
the embedding, so the two orders coincide).  The `fetch` sequence is replaced
by `oracle`, indexed by call position: preview attempts use indices `0..k-1`
and the publish call, when made, the next index. -/
def webhookMain (params : WebhookParams) (bodyParams : BodyParams) (env : ProcessEnv)
    (now : Nat) (oracle : Nat → FetchOutcome) : MainOutcome :=
  let nationality := resolveNationality bodyParams params
  let missing := missingFields params env
  if missing.length > 0 then
    { response := WebhookResult.errorShaped (errorResponse 400 (missingMsg missing))
      calls := [] }
  else
    let projectCoords := (resolveProjectCoords params env).getD emptyStr
    let token := (resolveToken params env).getD emptyStr
    let pagePath := generatePagePath now
    let prev := previewLoop token projectCoords pagePath nationality oracle 0
      MAX_PREVIEW_ATTEMPTS
    let previewAttempts := prev.fst
    let previewSuccessful := prev.snd.fst
    if previewSuccessful then
      let pub := processEvent liveEnv (oracle previewAttempts.length)
      let pubCall : Call :=
        { uriEnv := liveEnv
          request := processEventRequest token liveEnv projectCoords pagePath
            publishAction nationality }
      let publishSuccessful := pub.success
      { response := WebhookResult.response
          (if previewSuccessful && publishSuccessful then 200 else 500)
          { previewSuccessful := previewSuccessful
            publishSuccessful := publishSuccessful
            previewAttempts := previewAttempts
            pagePath := pagePath }
        calls := prev.snd.snd ++ [pubCall] }
    else
      { response := WebhookResult.response 500
          { previewSuccessful := false
            publishSuccessful := false
            previewAttempts := previewAttempts
            pagePath := pagePath }
        calls := prev.snd.snd }

/-- A thrown JavaScript error, reduced to its `message` (an absent message is
the empty string, which is falsy like `undefined`). -/
structure JsError where
  message : String
deriving DecidableEq

/-- The webhook action's catch-all handler
(`errorResponse(500, error.message || 'server error', logger)`). -/
def webhookCatchResponse (e : JsError) : ErrorShape :=
  errorResponse 500 (jsOrStr e.message serverErrorMsg)

/-- The data-provider action's catch-all handler
(`errorResponse(500, 'server error', logger)`); the error is logged, never
returned. -/
def rendererCatchResponse (_e : JsError) : ErrorShape :=
  errorResponse 500 serverErrorMsg

/-! Data-provider action (`actions/data-provider/index.js`). -/

/-- Base URL of the Random User API. -/
def RANDOM_API_ENDPOINT : String := "https://randomuser.me/api/"

/-- Path namespace of overlay pages. -/
def overlayNS : String := "/byom-page"

/-- `user.name` of a Random User API record. -/
structure RandomUserName where
  title : String
  first : String
  last : String
deriving DecidableEq

/-- `user.location.street`.  The street number is numeric in the API;
interpolation renders it decimally. -/
structure RandomUserStreet where
  number : Nat
  name : String
deriving DecidableEq

/-- `user.location.timezone`. -/
structure RandomUserTimezone where
  offset : String
  description : String
deriving DecidableEq

/-- `user.location`.  `postcode` can be numeric or string in the API; it is
carried as the string the template interpolation would render. -/
structure RandomUserLocation where
  street : RandomUserStreet
  city : String
  state : String
  country : String
  postcode : String
  timezone : RandomUserTimezone
deriving DecidableEq

/-- `user.login` (the fields the action reads). -/
structure RandomUserLogin where
  uuid : String
  username : String
deriving DecidableEq

/-- `user.dob` and `user.registered`: an ISO date string and an age. -/
structure RandomUserDob where
  date : String
  age : Nat
deriving DecidableEq

/-- `user.id`; either field may be the empty string, standing for a falsy
value in the `user.id.name || 'ID'` fallbacks. -/
structure RandomUserId where
  name : String
  value : String
deriving DecidableEq

/-- `user.picture` (the action reads only `large`). -/
structure RandomUserPicture where
  large : String
deriving DecidableEq

/-- One record of the Random User API `results` array, restricted to the
fields the action reads. -/
structure RandomUser where
  gender : String
  name : RandomUserName
  location : RandomUserLocation
  email : String
  login : RandomUserLogin
  dob : RandomUserDob
  registered : RandomUserDob
  phone : String
  cell : String
  id : RandomUserId
  picture : RandomUserPicture
  nat : String
deriving DecidableEq

/-- The parsed body of a Random User API response; `results = none` models an
absent `results` key (the source guards with `apiData.results &&
apiData.results.length > 0`). -/
structure ApiData where
  results : Option (List RandomUser)
deriving DecidableEq

/-- Outcome of the profile `fetch`: rejected promise, or a response with its
`ok` flag, status, status text, and parsed JSON body.  `apiData = none` on an
ok response models `apiRes.json()` throwing, which the source does not catch
locally. -/
inductive ProfileFetchOutcome where
  | threw
  | response (ok : Bool) (status : Nat) (statusText : String) (apiData : Option ApiData)
deriving DecidableEq

/-- The flat `userData` object substituted into the template.  `headers` is
only present in the API-mapped branch; the fallback object has no `headers`
key. -/
structure UserData where
  fullName : String
  username : String
  email : String
  phone : String
  cell : String
  picture : String
  address : String
  city : String
  state : String
  country : String
  postcode : String
  gender : String
  age : Nat
  dob : String
  registered : String
  nationality : String
  uuid : String
  idName : String
  idValue : String
  timezone : String
  path : String
  nationality_header : Option String
  timestamp : String
  headers : Option String
deriving DecidableEq

/-- The object handed to the compiled template: the user data wrapped under a
single `user` field. -/
structure PageData where
  user : UserData
deriving DecidableEq

/-- External collaborators of the data-provider action, passed explicitly:
the locale date formatter (`new Date(s).toLocaleDateString('en-US', ...)`),
the loaded-and-compiled Handlebars template (`none` models
`fs.readFileSync` throwing), the current ISO timestamp, and the JSON
rendering of the request headers. -/
structure RendererDeps where
  localeDate : String → String
  template : Option (PageData → String)
  nowIso : String
  headersJson : String

/-- `user.gender.charAt(0).toUpperCase() + user.gender.slice(1)`. -/
def capitalizeFirst (s : String) : String :=
  match s.data with
  | [] => ""
  | c :: rest => String.mk (Char.toUpper c :: rest)

/-- Translation of the API-success mapping block of the data-provider action
(the `userData = \x7b...\x7d` literal built from `apiData.results[0]`). -/
def mapApiUser (deps : RendererDeps) (user : RandomUser) (path : String)
    (nationality : Option String) : UserData :=
  { fullName := user.name.title ++ " " ++ user.name.first ++ " " ++ user.name.last
    username := user.login.username
    email := user.email
    phone := user.phone
    cell := user.cell
    picture := user.picture.large
    address := toString user.location.street.number ++ " " ++ user.location.street.name
    city := user.location.city
    state := user.location.state
    country := user.location.country
    postcode := user.location.postcode
    gender := capitalizeFirst user.gender
    age := user.dob.age
    dob := deps.localeDate user.dob.date
    registered := deps.localeDate user.registered.date
    nationality := user.nat
    uuid := user.login.uuid
    idName := jsOrStr user.id.name ("ID")
    idValue := jsOrStr user.id.value ("N/A")
    timezone := user.location.timezone.offset ++ " - " ++ user.location.timezone.description
    path := path
    nationality_header := nationality
    timestamp := deps.nowIso
    headers := some deps.headersJson }

/-- Translation of the hardcoded fallback `userData` literal used when the
API yielded no usable record. -/
def fallbackUserData (path : String) (nationality : Option String)
    (nowIso : String) : UserData :=
  { fullName := "John Doe"
    username := "johndoe"
    email := "john.doe@example.com"
    phone := "(555) 123-4567"
    cell := "(555) 987-6543"
    picture := "https://images.unsplash.com/photo-1472099645785-5658abf4ff4e?w=400"
    address := "123 Main Street"
    city := "San Francisco"
    state := "California"
    country := "United States"
    postcode := "94102"
    gender := "Male"
    age := 35
    dob := "January 1, 1989"
    registered := "March 15, 2020"
    nationality := "US"
    uuid := "00000000-0000-0000-0000-000000000000"
    idName := "SSN"
    idValue := "XXX-XX-1234"
    timezone := "UTC-8:00 - Pacific Time"
    path := path
    nationality_header := nationality
    timestamp := nowIso
    headers := none }

/-- Full response of the data-provider action: rendered HTML with a status
code and content type, or an error-shaped response. -/
inductive RendererResult where
  | html (statusCode : Nat) (body : String) (contentType : String)
  | errorShaped (e : ErrorShape)
deriving DecidableEq

/-- Content type of successful renderer responses. -/
def htmlContentType : String := "text/html"

/-- Observable outcome of one data-provider invocation: the response, the
profile-API URLs fetched, and the warning log lines emitted. -/
structure RendererOutcome where
  response : RendererResult
  profileCalls : List String
  warnings : List String
deriving DecidableEq

/-- String prefix test, evaluated over the character lists (the semantics of
JavaScript `String.prototype.startsWith` for plain strings). -/
def strStartsWith (s pre : String) : Bool :=
  pre.data.isPrefixOf s.data

/-- Path normalization of `main`: ensure a leading `/`. -/
def normalizeOwPath (owPath : String) : String :=
  if strStartsWith owPath slashStr then owPath else slashStr ++ owPath

/-- The warning logged when the nationality header is absent or falsy. -/
def invalidNatWarn (nationality : Option String) : String :=
  "Invalid nationality format: " ++ jsShow nationality ++ ". Using default."

/-- The warning logged on a non-ok profile response. -/
def fetchFailWarn (status : Nat) (statusText : String) : String :=
  "Failed to fetch from Random User API: " ++ toString status ++ " " ++ statusText

/-- Tail of the data-provider action after `userData` is settled: load and
compile the template (a load failure falls into the catch-all) and render
`\x7b user: userData \x7d` as `text/html` with status 200. -/
def finishRender (deps : RendererDeps) (apiUrl : String) (warnings : List String)
    (userData : UserData) : RendererOutcome :=
  match deps.template with
  | none =>
      { response := RendererResult.errorShaped (errorResponse 500 serverErrorMsg)
        profileCalls := [apiUrl]
        warnings := warnings }
  | some tmpl =>
      { response := RendererResult.html 200 (tmpl { user := userData }) htmlContentType
        profileCalls := [apiUrl]
        warnings := warnings }

/-- Translation of `main` from `actions/data-provider/index.js`.  The path is
normalized and gated on the overlay namespace before any call; the profile
fetch is replaced by `outcome`; a rejected fetch or a throwing `json()` read
falls into the catch-all (500, generic message); a non-ok response or an ok
response without a usable record substitutes the fallback user data. -/
def rendererMain (deps : RendererDeps) (owPath : String) (nationality : Option String)
    (outcome : ProfileFetchOutcome) : RendererOutcome :=
  let path := normalizeOwPath owPath
  if !(strStartsWith path overlayNS) then
    { response := RendererResult.errorShaped
        (errorResponse 404 (path ++ " is not an overlay path"))
      profileCalls := []
      warnings := [] }
  else
    let natWarnings := if jsTruthy nationality then [] else [invalidNatWarn nationality]
    let apiUrl :=
      if jsTruthy nationality then RANDOM_API_ENDPOINT ++ "?nat=" ++ jsShow nationality
      else RANDOM_API_ENDPOINT
    match outcome with
    | ProfileFetchOutcome.threw =>
        { response := RendererResult.errorShaped (errorResponse 500 serverErrorMsg)
          profileCalls := [apiUrl]
          warnings := natWarnings }
    | ProfileFetchOutcome.response ok status statusText apiData =>
        if ok then
          match apiData with
          | none =>
              { response := RendererResult.errorShaped (errorResponse 500 serverErrorMsg)
                profileCalls := [apiUrl]
                warnings := natWarnings }
          | some d =>
              match d.results with
              | some (user :: _) =>
                  finishRender deps apiUrl natWarnings (mapApiUser deps user path nationality)
              | _ =>
                  finishRender deps apiUrl natWarnings
                    (fallbackUserData path nationality deps.nowIso)
        else
          finishRender deps apiUrl (natWarnings ++ [fetchFailWarn status statusText])
            (fallbackUserData path nationality deps.nowIso)

/-- A profile-fetch outcome the action degrades gracefully from: a non-ok
transport response, or an ok response whose result set is absent or empty. -/
def softFetchFailure : ProfileFetchOutcome → Bool
  | ProfileFetchOutcome.response false _ _ _ => true
  | ProfileFetchOutcome.response true _ _ (some d) =>
      match d.results with
      | some (_ :: _) => false
      | _ => true
  | _ => false

/-- A non-ok transport response from the profile upstream. -/
def isTransportFailure : ProfileFetchOutcome → Bool
  | ProfileFetchOutcome.response false _ _ _ => true
  | _ => false

/-- Whether a recorded admin-API call targets the live (publish)
environment. -/
def isLiveCall (c : Call) : Bool := c.uriEnv == liveEnv

/-- The preview phase of a validated invocation, as run by `webhookMain`. -/
def mainPreviewRun (params : WebhookParams) (bodyParams : BodyParams) (env : ProcessEnv)
    (now : Nat) (oracle : Nat → FetchOutcome) : List AttemptRecord × Bool × List Call :=
  previewLoop ((resolveToken params env).getD emptyStr)
    ((resolveProjectCoords params env).getD emptyStr)
    (generatePagePath now) (resolveNationality bodyParams params) oracle 0
    MAX_PREVIEW_ATTEMPTS

/-- The publish-phase call record of a validated invocation. -/
def mainPublishCall (params : WebhookParams) (bodyParams : BodyParams) (env : ProcessEnv)
    (now : Nat) : Call :=
  { uriEnv := liveEnv
    request := processEventRequest ((resolveToken params env).getD emptyStr) liveEnv
      ((resolveProjectCoords params env).getD emptyStr) (generatePagePath now)
      publishAction (resolveNationality bodyParams params) }

/-- Whether a recorded admin-API call targets the preview environment. -/
def isPreviewCall (c : Call) : Bool := c.uriEnv == previewEnv

/-- Formalization of C7's per-call property: the call carries
`authorization: token <token>`, and carries the filter value in the
`x-content-source-location` header exactly when that value is truthy. -/
def carriesHeaders (token : String) (nationality : Option String) (c : Call) : Bool :=
  (c.request.authorizationHeader == tokenScheme ++ token)
    && (c.request.xContentSourceLocation
          == if jsTruthy nationality then nationality else none)

/-! Concrete fixtures used by witness and counterexample theorems. -/

/-- Example project coordinates. -/
def coordsEx : String := "owner/repo/main"

/-- Example admin token. -/
def tokenEx : String := "admin-token"

/-- Example nationality filter value. -/
def natEx : String := "US"

/-- Admin payload with nested preview status 200. -/
def okPayload : Js := Js.obj [(previewEnv, Js.obj [(statusKey, Js.num 200)])]

/-- Oracle under which every call returns ok with preview status 200. -/
def okOracle : Nat → FetchOutcome :=
  fun _ => FetchOutcome.response true 200 emptyStr (some okPayload)

/-- Oracle under which every call throws. -/
def downOracle : Nat → FetchOutcome := fun _ => FetchOutcome.threw

/-- Direct parameters supplying coordinates and token. -/
def witnessParams : WebhookParams :=
  { PROJECT_COORDS := some coordsEx, TOKEN := some tokenEx
    NATIONALITY := some natEx, nationality := none }

/-- Direct parameters supplying nothing. -/
def emptyParams : WebhookParams :=
  { PROJECT_COORDS := none, TOKEN := none, NATIONALITY := none, nationality := none }

/-- Decoded body supplying nothing. -/
def emptyBody : BodyParams :=
  { PROJECT_COORDS := none, TOKEN := none, NATIONALITY := none, nationality := none }

/-- Decoded body supplying coordinates and token (which `main` never reads
from the body). -/
def bodyWithCreds : BodyParams :=
  { PROJECT_COORDS := some coordsEx, TOKEN := some tokenEx
    NATIONALITY := none, nationality := none }

/-- Process environment supplying nothing. -/
def emptyEnv : ProcessEnv := { PROJECT_COORDS := none, TOKEN := none }

/-- Example ISO timestamp. -/
def demoIso : String := "2024-01-01T00:00:00.000Z"

/-- Trivial compiled-template collaborator used in fixtures: renders the
user's full name. -/
def demoTemplate (pd : PageData) : String := pd.user.fullName

/-- Renderer collaborators used in fixtures, with a loadable template. -/
def demoDeps : RendererDeps :=
  { localeDate := fun s => s
    template := some demoTemplate
    nowIso := demoIso
    headersJson := emptyStr }

/-- Renderer collaborators whose template load fails. -/
def noTemplateDeps : RendererDeps :=
  { localeDate := fun s => s
    template := none
    nowIso := demoIso
    headersJson := emptyStr }

/-- Example overlay path. -/
def overlayPathEx : String := "/byom-page/123"

/-- Example non-overlay path. -/
def otherPath : String := "/invalid-path"

/-- Example status text of a failing upstream response. -/
def statusTextEx : String := "Internal Server Error"

/-- Parsed body of an ok upstream response whose result set is empty. -/
def emptyResultsData : ApiData := { results := some [] }

/-- Example thrown-error message. -/
def boomMsg : String := "boom"

/-- Example thrown error with a non-empty message. -/
def boomError : JsError := { message := boomMsg }

/-! Helper lemmas. -/

theorem filter_replicate_of_pos {α : Type} (p : α → Bool) (a : α) (h : p a = true)
    (n : Nat) : (List.replicate n a).filter p = List.replicate n a := by
  induction n with
  | zero => rfl
  | succ n ih => simp [List.replicate_succ, List.filter_cons, h, ih]

theorem filter_replicate_of_neg {α : Type} (p : α → Bool) (a : α) (h : p a = false)
    (n : Nat) : (List.replicate n a).filter p = [] := by
  induction n with
  | zero => rfl
  | succ n ih => simp [List.replicate_succ, List.filter_cons, h, ih]

theorem processEvent_status_none_iff (uriEnv : String) (outcome : FetchOutcome) :
    (processEvent uriEnv outcome).status = none ↔ outcome = FetchOutcome.threw := by
  cases outcome with
  | threw => simp [processEvent]
  | response ok status statusText payload =>
      simp only [processEvent]
      split
      · split <;> simp
      · simp

theorem passesValidation_iff (params : WebhookParams) (env : ProcessEnv) :
    passesValidation params env = true ↔ missingFields params env = [] := by
  unfold passesValidation missingFields
  cases hc : jsTruthy (resolveProjectCoords params env) <;>
    cases ht : jsTruthy (resolveToken params env) <;> simp

theorem previewLoop_length_le (token projectCoords pagePath : String)
    (nationality : Option String) (oracle : Nat → FetchOutcome) (attempt fuel : Nat) :
    (previewLoop token projectCoords pagePath nationality oracle attempt fuel).fst.length
      ≤ fuel := by
  induction fuel generalizing attempt with
  | zero => simp [previewLoop]
  | succ fuel ih =>
      simp only [previewLoop]
      split
      · simp
      · simpa using Nat.succ_le_succ (ih (attempt + 1))

theorem previewLoop_calls (token projectCoords pagePath : String)
    (nationality : Option String) (oracle : Nat → FetchOutcome) (attempt fuel : Nat) :
    (previewLoop token projectCoords pagePath nationality oracle attempt fuel).snd.snd
      = List.replicate
          (previewLoop token projectCoords pagePath nationality oracle attempt fuel).fst.length
          { uriEnv := previewEnv
            request := processEventRequest token previewEnv projectCoords pagePath
              publishAction nationality } := by
  induction fuel generalizing attempt with
  | zero => simp [previewLoop]
  | succ fuel ih =>
      simp only [previewLoop]
      split
      · simp
      · simp [ih (attempt + 1), List.replicate_succ]

theorem previewLoop_entries (token projectCoords pagePath : String)
    (nationality : Option String) (oracle : Nat → FetchOutcome) (attempt fuel : Nat) :
    (previewLoop token projectCoords pagePath nationality oracle attempt fuel).fst
      = (List.range
          (previewLoop token projectCoords pagePath nationality oracle attempt fuel).fst.length).map
          (fun i => attemptEntry (attempt + i + 1) (processEvent previewEnv (oracle (attempt + i)))) := by
  induction fuel generalizing attempt with
  | zero => simp [previewLoop]
  | succ fuel ih =>
      simp only [previewLoop]
      split
      · simp [List.range_succ]
      · simp only [List.length_cons, List.range_succ_eq_map, List.map_cons, List.map_map]
        congr 1
        rw [ih (attempt + 1)]
        simp only [List.length_map, List.length_range]
        apply List.map_congr_left
        intro i _hi
        have h1 : attempt + 1 + i = attempt + (i + 1) := by omega
        simp [Function.comp, Nat.succ_eq_add_one, h1]

theorem previewLoop_success_any (token projectCoords pagePath : String)
    (nationality : Option String) (oracle : Nat → FetchOutcome) (attempt fuel : Nat) :
    (previewLoop token projectCoords pagePath nationality oracle attempt fuel).snd.fst
      = (previewLoop token projectCoords pagePath nationality oracle attempt fuel).fst.any
          (fun r => r.success) := by
  induction fuel generalizing attempt with
  | zero => simp [previewLoop]
  | succ fuel ih =>
      simp only [previewLoop]
      split
      · rename_i hs
        simp [attemptEntry, hs]
      · rename_i hs
        simp only [List.any_cons]
        rw [ih (attempt + 1)]
        simp [attemptEntry, hs]

theorem previewLoop_short (token projectCoords pagePath : String)
    (nationality : Option String) (oracle : Nat → FetchOutcome) (attempt fuel : Nat)
    (h : (previewLoop token projectCoords pagePath nationality oracle attempt fuel).fst.length
      < fuel) :
    (previewLoop token projectCoords pagePath nationality oracle attempt fuel).snd.fst = true := by
  induction fuel generalizing attempt with
  | zero => simp [previewLoop] at h
  | succ fuel ih =>
      revert h
      simp only [previewLoop]
      split
      · intro _
        rfl
      · intro h
        simp only [List.length_cons, Nat.add_lt_add_iff_right] at h
        simpa using ih (attempt + 1) h

theorem previewLoop_prefix_fail (token projectCoords pagePath : String)
    (nationality : Option String) (oracle : Nat → FetchOutcome) (attempt fuel i : Nat)
    (hi : i < (previewLoop token projectCoords pagePath nationality oracle attempt fuel).fst.length)
    (hlt : i + 1
      < (previewLoop token projectCoords pagePath nationality oracle attempt fuel).fst.length) :
    ((previewLoop token projectCoords pagePath nationality oracle attempt fuel).fst[i]).success
      = false := by
  induction fuel generalizing attempt i with
  | zero => simp [previewLoop] at hi
  | succ fuel ih =>
      by_cases hs : (processEvent previewEnv (oracle attempt)).success = true
      · exfalso
        simp [previewLoop, hs] at hlt
      · cases i with
        | zero =>
            simp [previewLoop, hs, attemptEntry]
        | succ j =>
            have hi2 : j
                < (previewLoop token projectCoords pagePath nationality oracle
                    (attempt + 1) fuel).fst.length := by
              have := hi
              simp [previewLoop, hs] at this
              omega
            have hlt2 : j + 1
                < (previewLoop token projectCoords pagePath nationality oracle
                    (attempt + 1) fuel).fst.length := by
              have := hlt
              simp [previewLoop, hs] at this
              omega
            have := ih (attempt + 1) j hi2 hlt2
            simp only [previewLoop, hs]
            simpa [hs] using this

theorem previewLoop_filter_live (token projectCoords pagePath : String)
    (nationality : Option String) (oracle : Nat → FetchOutcome) (attempt fuel : Nat) :
    (previewLoop token projectCoords pagePath nationality oracle attempt fuel).snd.snd.filter
        isLiveCall = [] := by
  rw [previewLoop_calls]
  apply filter_replicate_of_neg
  rfl

theorem previewLoop_filter_preview (token projectCoords pagePath : String)
    (nationality : Option String) (oracle : Nat → FetchOutcome) (attempt fuel : Nat) :
    ((previewLoop token projectCoords pagePath nationality oracle attempt fuel).snd.snd.filter
        isPreviewCall).length
      = (previewLoop token projectCoords pagePath nationality oracle attempt fuel).fst.length := by
  rw [previewLoop_calls, filter_replicate_of_pos]
  · simp
  · rfl

theorem webhookMain_valid_false (params : WebhookParams) (bodyParams : BodyParams)
    (env : ProcessEnv) (now : Nat) (oracle : Nat → FetchOutcome)
    (hm : missingFields params env = [])
    (hps : (mainPreviewRun params bodyParams env now oracle).snd.fst = false) :
    webhookMain params bodyParams env now oracle =
      { response := WebhookResult.response 500
          { previewSuccessful := false
            publishSuccessful := false
            previewAttempts := (mainPreviewRun params bodyParams env now oracle).fst
            pagePath := generatePagePath now }
        calls := (mainPreviewRun params bodyParams env now oracle).snd.snd } := by
  simp only [mainPreviewRun] at hps ⊢
  simp [webhookMain, hm, hps]

theorem webhookMain_valid_true (params : WebhookParams) (bodyParams : BodyParams)
    (env : ProcessEnv) (now : Nat) (oracle : Nat → FetchOutcome)
    (hm : missingFields params env = [])
    (hps : (mainPreviewRun params bodyParams env now oracle).snd.fst = true) :
    webhookMain params bodyParams env now oracle =
      { response := WebhookResult.response
          (if (processEvent liveEnv
                (oracle (mainPreviewRun params bodyParams env now oracle).fst.length)).success
              = true then 200 else 500)
          { previewSuccessful := true
            publishSuccessful := (processEvent liveEnv
              (oracle (mainPreviewRun params bodyParams env now oracle).fst.length)).success
            previewAttempts := (mainPreviewRun params bodyParams env now oracle).fst
            pagePath := generatePagePath now }
        calls := (mainPreviewRun params bodyParams env now oracle).snd.snd
          ++ [mainPublishCall params bodyParams env now] } := by
  simp only [mainPreviewRun, mainPublishCall] at hps ⊢
  simp [webhookMain, hm, hps]

theorem previewLoop_entries_zero (token projectCoords pagePath : String)
    (nationality : Option String) (oracle : Nat → FetchOutcome) (fuel : Nat) :
    (previewLoop token projectCoords pagePath nationality oracle 0 fuel).fst
      = (List.range
          (previewLoop token projectCoords pagePath nationality oracle 0 fuel).fst.length).map
          (fun i => attemptEntry (i + 1) (processEvent previewEnv (oracle i))) := by
  rw [previewLoop_entries]
  simp only [List.length_map, List.length_range]
  apply List.map_congr_left
  intro i _
  simp

theorem previewLoop_getElem_zero (token projectCoords pagePath : String)
    (nationality : Option String) (oracle : Nat → FetchOutcome) (fuel i : Nat)
    (hi : i < (previewLoop token projectCoords pagePath nationality oracle 0 fuel).fst.length) :
    (previewLoop token projectCoords pagePath nationality oracle 0 fuel).fst[i]
      = attemptEntry (i + 1) (processEvent previewEnv (oracle i)) := by
  have e0 := previewLoop_entries_zero token projectCoords pagePath nationality oracle fuel
  rw [getElem_congr_coll e0]
  simp

theorem previewLoop_short_iff (token projectCoords pagePath : String)
    (nationality : Option String) (oracle : Nat → FetchOutcome) (fuel : Nat) :
    (previewLoop token projectCoords pagePath nationality oracle 0 fuel).fst.length < fuel
      ↔ ∃ i, ∃ hi : i
            < (previewLoop token projectCoords pagePath nationality oracle 0 fuel).fst.length,
          i + 1 < fuel
            ∧ ((previewLoop token projectCoords pagePath nationality oracle
                  0 fuel).fst[i]).success = true := by
  constructor
  · intro hlen
    have hsucc := previewLoop_short token projectCoords pagePath nationality oracle 0 fuel hlen
    rw [previewLoop_success_any, List.any_eq_true] at hsucc
    obtain ⟨r, hr, hrs⟩ := hsucc
    rw [List.mem_iff_getElem] at hr
    obtain ⟨i, hi, hig⟩ := hr
    refine ⟨i, hi, by omega, ?_⟩
    rw [hig]
    exact hrs
  · rintro ⟨i, hi, hlt, hsucc⟩
    by_contra hge
    have hle := previewLoop_length_le token projectCoords pagePath nationality oracle 0 fuel
    have hfail := previewLoop_prefix_fail token projectCoords pagePath nationality oracle 0
      fuel i hi (by omega)
    rw [hfail] at hsucc
    cases hsucc

/-! Claim theorems. -/

/-- C1: a preview-phase remote call is classified successful iff it did not
throw, the transport response is ok, and any numeric nested `preview.status`
field of the parsed payload equals 200; when the nested field is absent or
the payload is unparsable, transport-level success alone decides. -/
theorem preview_attempt_classification (ok : Bool) (status : Nat) (statusText : String)
    (payload : Option Js) :
    ((processEvent previewEnv (FetchOutcome.response ok status statusText payload)).success
          = true
        ↔ ok = true ∧ ∀ n : Int, previewStatusField payload = some n → n = 200)
      ∧ (processEvent previewEnv FetchOutcome.threw).success = false := by
  refine ⟨?_, rfl⟩
  cases ok with
  | false => simp [processEvent]
  | true =>
      cases hp : previewStatusField payload with
      | none => simp [processEvent, previewStatusFor, hp]
      | some n => simp [processEvent, previewStatusFor, hp, beq_iff_eq]

/-- Witness for C1 at a concrete ok response carrying preview status 200. -/
theorem preview_attempt_classification_witness :
    ((processEvent previewEnv
            (FetchOutcome.response true 200 emptyStr (some okPayload))).success = true
        ↔ true = true ∧ ∀ n : Int, previewStatusField (some okPayload) = some n → n = 200)
      ∧ (processEvent previewEnv FetchOutcome.threw).success = false :=
  preview_attempt_classification true 200 emptyStr (some okPayload)

/-- C2: after validation passes, the live (publish) call is made exactly once
when some preview attempt succeeded and never otherwise, and
`publishSuccessful` implies `previewSuccessful` in the returned body. -/
theorem publish_gated_on_preview (params : WebhookParams) (bodyParams : BodyParams)
    (env : ProcessEnv) (now : Nat) (oracle : Nat → FetchOutcome)
    (h : passesValidation params env = true) :
    ∃ sc body,
      (webhookMain params bodyParams env now oracle).response
          = WebhookResult.response sc body
        ∧ ((webhookMain params bodyParams env now oracle).calls.filter isLiveCall).length
            = (if body.previewSuccessful then 1 else 0)
        ∧ body.previewSuccessful
            = body.previewAttempts.any (fun r => r.success)
        ∧ (body.publishSuccessful = true → body.previewSuccessful = true) := by
  have hm : missingFields params env = [] := (passesValidation_iff params env).mp h
  cases hps : (mainPreviewRun params bodyParams env now oracle).snd.fst with
  | false =>
      rw [webhookMain_valid_false params bodyParams env now oracle hm hps]
      refine ⟨500, _, rfl, ?_, ?_, ?_⟩
      · simp only [mainPreviewRun]
        simp [previewLoop_filter_live]
      · simp only [mainPreviewRun] at hps ⊢
        rw [← previewLoop_success_any]
        exact hps.symm
      · simp
  | true =>
      rw [webhookMain_valid_true params bodyParams env now oracle hm hps]
      refine ⟨_, _, rfl, ?_, ?_, ?_⟩
      · simp only [mainPreviewRun, mainPublishCall]
        simp [List.filter_append, previewLoop_filter_live, isLiveCall]
      · simp only [mainPreviewRun] at hps ⊢
        rw [← previewLoop_success_any]
        exact hps.symm
      · simp

theorem mainPreviewRun_entries (params : WebhookParams) (bodyParams : BodyParams)
    (env : ProcessEnv) (now : Nat) (oracle : Nat → FetchOutcome) :
    (mainPreviewRun params bodyParams env now oracle).fst
      = (List.range (mainPreviewRun params bodyParams env now oracle).fst.length).map
          (fun i => attemptEntry (i + 1) (processEvent previewEnv (oracle i))) := by
  simp only [mainPreviewRun]
  exact previewLoop_entries_zero _ _ _ _ _ _

theorem mainPreviewRun_getElem (params : WebhookParams) (bodyParams : BodyParams)
    (env : ProcessEnv) (now : Nat) (oracle : Nat → FetchOutcome) (i : Nat)
    (hi : i < (mainPreviewRun params bodyParams env now oracle).fst.length) :
    (mainPreviewRun params bodyParams env now oracle).fst[i]
      = attemptEntry (i + 1) (processEvent previewEnv (oracle i)) := by
  rw [getElem_congr_coll (mainPreviewRun_entries params bodyParams env now oracle)]
  simp

theorem mainPreviewRun_prefix_fail (params : WebhookParams) (bodyParams : BodyParams)
    (env : ProcessEnv) (now : Nat) (oracle : Nat → FetchOutcome) (i : Nat)
    (hi : i < (mainPreviewRun params bodyParams env now oracle).fst.length)
    (hlt : i + 1 < (mainPreviewRun params bodyParams env now oracle).fst.length) :
    ((mainPreviewRun params bodyParams env now oracle).fst[i]).success = false := by
  simp only [mainPreviewRun] at hi hlt ⊢
  exact previewLoop_prefix_fail _ _ _ _ _ _ _ _ hi hlt

theorem mainPreviewRun_short_iff (params : WebhookParams) (bodyParams : BodyParams)
    (env : ProcessEnv) (now : Nat) (oracle : Nat → FetchOutcome) :
    (mainPreviewRun params bodyParams env now oracle).fst.length < MAX_PREVIEW_ATTEMPTS
      ↔ ∃ i, ∃ hi : i < (mainPreviewRun params bodyParams env now oracle).fst.length,
          i + 1 < MAX_PREVIEW_ATTEMPTS
            ∧ ((mainPreviewRun params bodyParams env now oracle).fst[i]).success = true := by
  simp only [mainPreviewRun]
  exact previewLoop_short_iff _ _ _ _ _ _

/-- C3: after validation passes, the preview attempt list has exactly one
entry per preview call made, in call order, each entry carrying its 1-based
ordinal (field `attempt` in the source record, `\x7b attempt: attemptNumber,
success, status \x7d`) and the classification of its call; the length never
exceeds 3; every entry but the last records a failure, and the length is
strictly below 3 exactly when an attempt before the third succeeds; an
entry's status is absent exactly when its call threw. -/
theorem preview_attempts_bookkeeping (params : WebhookParams) (bodyParams : BodyParams)
    (env : ProcessEnv) (now : Nat) (oracle : Nat → FetchOutcome)
    (h : passesValidation params env = true) :
    ∃ sc body,
      (webhookMain params bodyParams env now oracle).response
          = WebhookResult.response sc body
        ∧ body.previewAttempts
            = (List.range body.previewAttempts.length).map
                (fun i => attemptEntry (i + 1) (processEvent previewEnv (oracle i)))
        ∧ body.previewAttempts.length ≤ MAX_PREVIEW_ATTEMPTS
        ∧ body.previewAttempts.length
            = ((webhookMain params bodyParams env now oracle).calls.filter
                isPreviewCall).length
        ∧ (∀ i, ∀ hi : i < body.previewAttempts.length,
            (body.previewAttempts[i]).attempt = i + 1)
        ∧ (∀ i, ∀ hi : i < body.previewAttempts.length,
            i + 1 < body.previewAttempts.length →
              (body.previewAttempts[i]).success = false)
        ∧ (body.previewAttempts.length < MAX_PREVIEW_ATTEMPTS
            ↔ ∃ i, ∃ hi : i < body.previewAttempts.length,
                i + 1 < MAX_PREVIEW_ATTEMPTS ∧ (body.previewAttempts[i]).success = true)
        ∧ (∀ i, ∀ hi : i < body.previewAttempts.length,
            ((body.previewAttempts[i]).status = none ↔ oracle i = FetchOutcome.threw)) := by
  have hm : missingFields params env = [] := (passesValidation_iff params env).mp h
  obtain ⟨sc, body, hresp, hatt, hcalls⟩ : ∃ sc body,
      (webhookMain params bodyParams env now oracle).response
          = WebhookResult.response sc body
        ∧ body.previewAttempts = (mainPreviewRun params bodyParams env now oracle).fst
        ∧ ((webhookMain params bodyParams env now oracle).calls.filter isPreviewCall).length
            = (mainPreviewRun params bodyParams env now oracle).fst.length := by
    cases hps : (mainPreviewRun params bodyParams env now oracle).snd.fst with
    | false =>
        rw [webhookMain_valid_false params bodyParams env now oracle hm hps]
        refine ⟨_, _, rfl, rfl, ?_⟩
        simp only [mainPreviewRun]
        exact previewLoop_filter_preview _ _ _ _ _ _ _
    | true =>
        rw [webhookMain_valid_true params bodyParams env now oracle hm hps]
        refine ⟨_, _, rfl, rfl, ?_⟩
        rw [List.filter_append]
        have hpub : isPreviewCall (mainPublishCall params bodyParams env now) = false := rfl
        simp only [mainPreviewRun, List.filter_cons, List.filter_nil, hpub]
        simp [previewLoop_filter_preview]
  refine ⟨sc, body, hresp, ?_, ?_, ?_, ?_, ?_, ?_, ?_⟩
  · rw [hatt]
    exact mainPreviewRun_entries params bodyParams env now oracle
  · rw [hatt]
    simp only [mainPreviewRun]
    exact previewLoop_length_le _ _ _ _ _ _ _
  · rw [hatt, hcalls]
  · intro i hi
    rw [hatt] at hi
    simp only [hatt, mainPreviewRun_getElem params bodyParams env now oracle i hi]
    rfl
  · intro i hi hlt
    rw [hatt] at hi hlt
    simp only [hatt]
    exact mainPreviewRun_prefix_fail params bodyParams env now oracle i hi hlt
  · rw [hatt]
    exact mainPreviewRun_short_iff params bodyParams env now oracle
  · intro i hi
    rw [hatt] at hi
    simp only [hatt, mainPreviewRun_getElem params bodyParams env now oracle i hi]
    exact processEvent_status_none_iff previewEnv (oracle i)

/-- C5: after validation passes, the returned status code is 200 exactly when
both `previewSuccessful` and `publishSuccessful` are true and 500 otherwise,
and the response always carries the structured body — both flags, the full
attempt list, and the generated page path — regardless of outcome. -/
theorem result_composition (params : WebhookParams) (bodyParams : BodyParams)
    (env : ProcessEnv) (now : Nat) (oracle : Nat → FetchOutcome)
    (h : passesValidation params env = true) :
    ∃ sc body,
      (webhookMain params bodyParams env now oracle).response
          = WebhookResult.response sc body
        ∧ (sc = 200 ∨ sc = 500)
        ∧ (sc = 200 ↔ body.previewSuccessful = true ∧ body.publishSuccessful = true)
        ∧ body.previewAttempts = (mainPreviewRun params bodyParams env now oracle).fst
        ∧ body.pagePath = generatePagePath now := by
  have hm : missingFields params env = [] := (passesValidation_iff params env).mp h
  cases hps : (mainPreviewRun params bodyParams env now oracle).snd.fst with
  | false =>
      rw [webhookMain_valid_false params bodyParams env now oracle hm hps]
      exact ⟨500, _, rfl, Or.inr rfl, by simp, rfl, rfl⟩
  | true =>
      rw [webhookMain_valid_true params bodyParams env now oracle hm hps]
      refine ⟨_, _, rfl, ?_, ?_, rfl, rfl⟩
      · cases hpub : (processEvent liveEnv
            (oracle (mainPreviewRun params bodyParams env now oracle).fst.length)).success <;>
          simp [hpub]
      · cases hpub : (processEvent liveEnv
            (oracle (mainPreviewRun params bodyParams env now oracle).fst.length)).success <;>
          simp [hpub]

/-- C6: when, after merging the request with the process-wide fallbacks, the
coordinates or the token (or both) resolve falsy, the response is the
error shape with status 400 naming exactly the missing fields in sorted
order, and no outbound call is made. -/
theorem validation_failure_response (params : WebhookParams) (bodyParams : BodyParams)
    (env : ProcessEnv) (now : Nat) (oracle : Nat → FetchOutcome)
    (h : passesValidation params env = false) :
    (webhookMain params bodyParams env now oracle).calls = []
      ∧ (webhookMain params bodyParams env now oracle).response
          = WebhookResult.errorShaped
              (errorResponse 400 (missingMsg (missingFields params env)))
      ∧ (projectCoordsName ∈ missingFields params env
          ↔ jsTruthy (resolveProjectCoords params env) = false)
      ∧ (tokenName ∈ missingFields params env
          ↔ jsTruthy (resolveToken params env) = false)
      ∧ missingFields params env ≠ []
      ∧ List.Pairwise (fun a b : String => a < b) (missingFields params env) := by
  have hm : missingFields params env ≠ [] := by
    intro hnil
    rw [← passesValidation_iff params env] at hnil
    rw [h] at hnil
    cases hnil
  have hlen : 0 < (missingFields params env).length := List.length_pos.mpr hm
  refine ⟨?_, ?_, ?_, ?_, hm, ?_⟩
  · simp [webhookMain, hlen]
  · simp [webhookMain, hlen]
  · unfold missingFields
    cases hc : jsTruthy (resolveProjectCoords params env) <;>
      cases ht : jsTruthy (resolveToken params env) <;>
        simp [projectCoordsName, tokenName]
  · unfold missingFields
    cases hc : jsTruthy (resolveProjectCoords params env) <;>
      cases ht : jsTruthy (resolveToken params env) <;>
        simp [projectCoordsName, tokenName]
  · unfold missingFields
    cases hc : jsTruthy (resolveProjectCoords params env) <;>
      cases ht : jsTruthy (resolveToken params env) <;>
        simp
    decide

/-- C7: after validation passes, every outbound call — all preview calls and
the publish call — carries `authorization: token <TOKEN>` and carries the
merged filter value in `x-content-source-location` exactly when that value is
present (truthy); when it is absent, no call sets that header. -/
theorem propagation_headers (params : WebhookParams) (bodyParams : BodyParams)
    (env : ProcessEnv) (now : Nat) (oracle : Nat → FetchOutcome)
    (h : passesValidation params env = true) :
    (webhookMain params bodyParams env now oracle).calls.all
        (carriesHeaders ((resolveToken params env).getD emptyStr)
          (resolveNationality bodyParams params)) = true := by
  have hm : missingFields params env = [] := (passesValidation_iff params env).mp h
  have hprevcall : ∀ c ∈ (mainPreviewRun params bodyParams env now oracle).snd.snd,
      carriesHeaders ((resolveToken params env).getD emptyStr)
        (resolveNationality bodyParams params) c = true := by
    intro c hc
    simp only [mainPreviewRun] at hc
    rw [previewLoop_calls] at hc
    rw [List.eq_of_mem_replicate hc]
    simp [carriesHeaders, processEventRequest]
  cases hps : (mainPreviewRun params bodyParams env now oracle).snd.fst with
  | false =>
      rw [webhookMain_valid_false params bodyParams env now oracle hm hps]
      rw [List.all_eq_true]
      exact hprevcall
  | true =>
      rw [webhookMain_valid_true params bodyParams env now oracle hm hps]
      rw [List.all_eq_true]
      intro c hc
      rw [List.mem_append] at hc
      cases hc with
      | inl hc => exact hprevcall c hc
      | inr hc =>
          rw [List.mem_singleton] at hc
          rw [hc]
          simp [carriesHeaders, mainPublishCall, processEventRequest]

/-- Witness for C2 at a validated invocation whose preview succeeds at once. -/
theorem publish_gated_on_preview_witness :
    ∃ sc body,
      (webhookMain witnessParams emptyBody emptyEnv 0 okOracle).response
          = WebhookResult.response sc body
        ∧ ((webhookMain witnessParams emptyBody emptyEnv 0 okOracle).calls.filter
            isLiveCall).length = (if body.previewSuccessful then 1 else 0)
        ∧ body.previewSuccessful = body.previewAttempts.any (fun r => r.success)
        ∧ (body.publishSuccessful = true → body.previewSuccessful = true) :=
  publish_gated_on_preview witnessParams emptyBody emptyEnv 0 okOracle rfl

/-- Witness for C3 at a validated invocation whose every call throws. -/
theorem preview_attempts_bookkeeping_witness :
    ∃ sc body,
      (webhookMain witnessParams emptyBody emptyEnv 0 downOracle).response
          = WebhookResult.response sc body
        ∧ body.previewAttempts
            = (List.range body.previewAttempts.length).map
                (fun i => attemptEntry (i + 1) (processEvent previewEnv (downOracle i)))
        ∧ body.previewAttempts.length ≤ MAX_PREVIEW_ATTEMPTS
        ∧ body.previewAttempts.length
            = ((webhookMain witnessParams emptyBody emptyEnv 0 downOracle).calls.filter
                isPreviewCall).length
        ∧ (∀ i, ∀ hi : i < body.previewAttempts.length,
            (body.previewAttempts[i]).attempt = i + 1)
        ∧ (∀ i, ∀ hi : i < body.previewAttempts.length,
            i + 1 < body.previewAttempts.length →
              (body.previewAttempts[i]).success = false)
        ∧ (body.previewAttempts.length < MAX_PREVIEW_ATTEMPTS
            ↔ ∃ i, ∃ hi : i < body.previewAttempts.length,
                i + 1 < MAX_PREVIEW_ATTEMPTS ∧ (body.previewAttempts[i]).success = true)
        ∧ (∀ i, ∀ hi : i < body.previewAttempts.length,
            ((body.previewAttempts[i]).status = none ↔ downOracle i = FetchOutcome.threw)) :=
  preview_attempts_bookkeeping witnessParams emptyBody emptyEnv 0 downOracle rfl

/-- Witness for C5 at a validated invocation whose both phases succeed. -/
theorem result_composition_witness :
    ∃ sc body,
      (webhookMain witnessParams emptyBody emptyEnv 0 okOracle).response
          = WebhookResult.response sc body
        ∧ (sc = 200 ∨ sc = 500)
        ∧ (sc = 200 ↔ body.previewSuccessful = true ∧ body.publishSuccessful = true)
        ∧ body.previewAttempts = (mainPreviewRun witnessParams emptyBody emptyEnv 0 okOracle).fst
        ∧ body.pagePath = generatePagePath 0 :=
  result_composition witnessParams emptyBody emptyEnv 0 okOracle rfl

/-- Witness for C6 at an invocation supplying neither coordinates nor
token. -/
theorem validation_failure_response_witness :
    (webhookMain emptyParams emptyBody emptyEnv 0 downOracle).calls = []
      ∧ (webhookMain emptyParams emptyBody emptyEnv 0 downOracle).response
          = WebhookResult.errorShaped
              (errorResponse 400 (missingMsg (missingFields emptyParams emptyEnv)))
      ∧ (projectCoordsName ∈ missingFields emptyParams emptyEnv
          ↔ jsTruthy (resolveProjectCoords emptyParams emptyEnv) = false)
      ∧ (tokenName ∈ missingFields emptyParams emptyEnv
          ↔ jsTruthy (resolveToken emptyParams emptyEnv) = false)
      ∧ missingFields emptyParams emptyEnv ≠ []
      ∧ List.Pairwise (fun a b : String => a < b) (missingFields emptyParams emptyEnv) :=
  validation_failure_response emptyParams emptyBody emptyEnv 0 downOracle rfl

/-- Witness for C7 at a validated invocation with a nationality filter. -/
theorem propagation_headers_witness :
    (webhookMain witnessParams emptyBody emptyEnv 0 okOracle).calls.all
        (carriesHeaders ((resolveToken witnessParams emptyEnv).getD emptyStr)
          (resolveNationality emptyBody witnessParams)) = true :=
  propagation_headers witnessParams emptyBody emptyEnv 0 okOracle rfl

/-- C8: a renderer invocation whose supplied path — after normalization
ensuring a leading separator — does not begin with `/byom-page` yields the
404 error shape naming that normalized path, with no upstream profile call
made (and no warnings logged). -/
theorem renderer_path_gate (deps : RendererDeps) (owPath : String)
    (nationality : Option String) (outcome : ProfileFetchOutcome)
    (h : strStartsWith (normalizeOwPath owPath) overlayNS = false) :
    rendererMain deps owPath nationality outcome
      = { response := RendererResult.errorShaped
            (errorResponse 404 (normalizeOwPath owPath ++ " is not an overlay path"))
          profileCalls := []
          warnings := [] } := by
  simp [rendererMain, h]

/-- Witness for C8 at the concrete path `/invalid-path`. -/
theorem renderer_path_gate_witness :
    rendererMain demoDeps otherPath none ProfileFetchOutcome.threw
      = { response := RendererResult.errorShaped
            (errorResponse 404 (normalizeOwPath otherPath ++ " is not an overlay path"))
          profileCalls := []
          warnings := [] } :=
  renderer_path_gate demoDeps otherPath none ProfileFetchOutcome.threw rfl

/-- C4 counterexample: two of the claim's enumerated failure modes diverge
from it at concrete inputs.  With the profile upstream unreachable (the
fetch promise rejects — a failure with no response at all), a valid
overlay-path invocation returns the 500 error shape with the generic
message, not a 200 response with the fallback record: the rejected fetch is
only caught by the catch-all, never by the degrade-gracefully branch.  And
with an ok response carrying an empty result set while the nationality
header is present, the invocation does return the 200 fallback page but
emits no warning at all, against the claim's `plus a logged warning`. -/
theorem renderer_unreachable_upstream_cex :
    (rendererMain demoDeps overlayPathEx none ProfileFetchOutcome.threw).response
        = RendererResult.errorShaped (errorResponse 500 serverErrorMsg)
      ∧ (rendererMain demoDeps overlayPathEx none ProfileFetchOutcome.threw).response
          ≠ RendererResult.html 200
              (demoTemplate
                { user := (fallbackUserData (normalizeOwPath overlayPathEx) none
                    demoDeps.nowIso) })
              htmlContentType
      ∧ (rendererMain demoDeps overlayPathEx (some natEx)
            (ProfileFetchOutcome.response true 200 emptyStr
              (some emptyResultsData))).response
          = RendererResult.html 200
              (demoTemplate
                { user := (fallbackUserData (normalizeOwPath overlayPathEx) (some natEx)
                    demoDeps.nowIso) })
              htmlContentType
      ∧ (rendererMain demoDeps overlayPathEx (some natEx)
            (ProfileFetchOutcome.response true 200 emptyStr
              (some emptyResultsData))).warnings = [] := by
  refine ⟨rfl, ?_, rfl, rfl⟩
  decide

/-- C4 amended: on a non-success transport response, or an ok response with
an absent or empty result set, a valid overlay-path invocation still returns
status 200 with the fixed fallback profile record (fullName `John Doe`,
username `johndoe`, hardcoded profile fields) substituted into the template;
a warning is logged in the non-success transport case, but none is logged in
the ok-but-empty case when the nationality header is present; and a rejected
fetch (no response at all) instead falls into the catch-all and yields the
generic 500 server-error response. -/
theorem renderer_fallback_on_soft_failure (deps : RendererDeps)
    (tmpl : PageData → String) (owPath : String) (nationality : Option String)
    (outcome : ProfileFetchOutcome)
    (hpath : strStartsWith (normalizeOwPath owPath) overlayNS = true)
    (hfail : softFetchFailure outcome = true)
    (htmpl : deps.template = some tmpl) :
    (rendererMain deps owPath nationality outcome).response
        = RendererResult.html 200
            (tmpl { user := (fallbackUserData (normalizeOwPath owPath) nationality
                deps.nowIso) })
            htmlContentType
      ∧ (fallbackUserData (normalizeOwPath owPath) nationality deps.nowIso).fullName
          = "John Doe"
      ∧ (fallbackUserData (normalizeOwPath owPath) nationality deps.nowIso).username
          = "johndoe"
      ∧ (isTransportFailure outcome = true →
          (rendererMain deps owPath nationality outcome).warnings ≠ [])
      ∧ (isTransportFailure outcome = false → jsTruthy nationality = true →
          (rendererMain deps owPath nationality outcome).warnings = [])
      ∧ (rendererMain deps owPath nationality ProfileFetchOutcome.threw).response
          = RendererResult.errorShaped (errorResponse 500 serverErrorMsg) := by
  have hgate : (!(strStartsWith (normalizeOwPath owPath) overlayNS)) = false := by
    rw [hpath]
    rfl
  refine ⟨?_, rfl, rfl, ?_, ?_, ?_⟩
  · cases outcome with
    | threw => simp [softFetchFailure] at hfail
    | response ok status statusText apiData =>
        cases ok with
        | false => simp [rendererMain, hgate, finishRender, htmpl]
        | true =>
            cases apiData with
            | none => simp [softFetchFailure] at hfail
            | some d =>
                cases hr : d.results with
                | none => simp [rendererMain, hgate, finishRender, htmpl, hr]
                | some l =>
                    cases l with
                    | nil => simp [rendererMain, hgate, finishRender, htmpl, hr]
                    | cons u t => simp [softFetchFailure, hr] at hfail
  · intro htf
    cases outcome with
    | threw => simp [isTransportFailure] at htf
    | response ok status statusText apiData =>
        cases ok with
        | true => simp [isTransportFailure] at htf
        | false => simp [rendererMain, hgate, finishRender, htmpl]
  · intro htf hnat
    cases outcome with
    | threw => simp [softFetchFailure] at hfail
    | response ok status statusText apiData =>
        cases ok with
        | false => simp [isTransportFailure] at htf
        | true =>
            cases apiData with
            | none => simp [softFetchFailure] at hfail
            | some d =>
                cases hr : d.results with
                | none => simp [rendererMain, hgate, finishRender, htmpl, hr, hnat]
                | some l =>
                    cases l with
                    | nil => simp [rendererMain, hgate, finishRender, htmpl, hr, hnat]
                    | cons u t => simp [softFetchFailure, hr] at hfail
  · simp [rendererMain, hgate]

/-- Witness for the amended C4 at a concrete 500 upstream response. -/
theorem renderer_fallback_on_soft_failure_witness :
    (rendererMain demoDeps overlayPathEx none
          (ProfileFetchOutcome.response false 500 statusTextEx none)).response
        = RendererResult.html 200
            (demoTemplate
              { user := (fallbackUserData (normalizeOwPath overlayPathEx) none
                  demoDeps.nowIso) })
            htmlContentType
      ∧ (fallbackUserData (normalizeOwPath overlayPathEx) none demoDeps.nowIso).fullName
          = "John Doe"
      ∧ (fallbackUserData (normalizeOwPath overlayPathEx) none demoDeps.nowIso).username
          = "johndoe"
      ∧ (isTransportFailure (ProfileFetchOutcome.response false 500 statusTextEx none)
            = true →
          (rendererMain demoDeps overlayPathEx none
              (ProfileFetchOutcome.response false 500 statusTextEx none)).warnings ≠ [])
      ∧ (isTransportFailure (ProfileFetchOutcome.response false 500 statusTextEx none)
            = false → jsTruthy none = true →
          (rendererMain demoDeps overlayPathEx none
              (ProfileFetchOutcome.response false 500 statusTextEx none)).warnings = [])
      ∧ (rendererMain demoDeps overlayPathEx none ProfileFetchOutcome.threw).response
          = RendererResult.errorShaped (errorResponse 500 serverErrorMsg) :=
  renderer_fallback_on_soft_failure demoDeps demoTemplate overlayPathEx none
    (ProfileFetchOutcome.response false 500 statusTextEx none) rfl rfl rfl

/-- C9 counterexample: with no direct parameters and no process-wide
fallbacks, a body supplying both coordinates and token still fails validation
naming both fields, with zero calls — `main` never reads coordinates or token
from the decoded body, so the body value is not used. -/
theorem body_credentials_ignored_cex :
    (webhookMain emptyParams bodyWithCreds emptyEnv 0 downOracle).response
        = WebhookResult.errorShaped
            (errorResponse 400 (missingMsg [projectCoordsName, tokenName]))
      ∧ (webhookMain emptyParams bodyWithCreds emptyEnv 0 downOracle).calls = [] :=
  ⟨rfl, rfl⟩

/-- C9 amended: coordinates and token are resolved from the direct parameter
with the process-wide value as only fallback — the decoded body is never
consulted for them, so a body-only supply still fails validation — while the
filter value is resolved in the order body `NATIONALITY`, body `nationality`,
direct `NATIONALITY`, direct `nationality`, first truthy value winning. -/
theorem request_merge_semantics (params : WebhookParams) (bodyParams : BodyParams)
    (env : ProcessEnv) (now : Nat) (oracle : Nat → FetchOutcome) :
    webhookMain params bodyParams env now oracle
        = webhookMain params
            { bodyParams with PROJECT_COORDS := none, TOKEN := none } env now oracle
      ∧ resolveProjectCoords params env = jsOr params.PROJECT_COORDS env.PROJECT_COORDS
      ∧ resolveToken params env = jsOr params.TOKEN env.TOKEN
      ∧ (jsTruthy params.PROJECT_COORDS = false → jsTruthy env.PROJECT_COORDS = false →
          projectCoordsName ∈ missingFields params env)
      ∧ (jsTruthy params.TOKEN = false → jsTruthy env.TOKEN = false →
          tokenName ∈ missingFields params env)
      ∧ (jsTruthy bodyParams.NATIONALITY = true →
          resolveNationality bodyParams params = bodyParams.NATIONALITY)
      ∧ (jsTruthy bodyParams.NATIONALITY = false →
          jsTruthy bodyParams.nationality = true →
          resolveNationality bodyParams params = bodyParams.nationality)
      ∧ (jsTruthy bodyParams.NATIONALITY = false →
          jsTruthy bodyParams.nationality = false →
          jsTruthy params.NATIONALITY = true →
          resolveNationality bodyParams params = params.NATIONALITY)
      ∧ (jsTruthy bodyParams.NATIONALITY = false →
          jsTruthy bodyParams.nationality = false →
          jsTruthy params.NATIONALITY = false →
          resolveNationality bodyParams params = params.nationality) := by
  refine ⟨rfl, rfl, rfl, ?_, ?_, ?_, ?_, ?_, ?_⟩
  · intro h1 h2
    simp [missingFields, resolveProjectCoords, jsOr, h1, h2]
  · intro h1 h2
    simp [missingFields, resolveToken, jsOr, h1, h2]
  · intro h1
    simp [resolveNationality, jsOr, h1]
  · intro h1 h2
    simp [resolveNationality, jsOr, h1, h2]
  · intro h1 h2 h3
    simp [resolveNationality, jsOr, h1, h2, h3]
  · intro h1 h2 h3
    simp [resolveNationality, jsOr, h1, h2, h3]

/-- Witness for the amended C9 at concrete inputs. -/
theorem request_merge_semantics_witness :
    webhookMain witnessParams bodyWithCreds emptyEnv 0 downOracle
        = webhookMain witnessParams
            { bodyWithCreds with PROJECT_COORDS := none, TOKEN := none } emptyEnv 0
            downOracle
      ∧ resolveProjectCoords witnessParams emptyEnv
          = jsOr witnessParams.PROJECT_COORDS emptyEnv.PROJECT_COORDS
      ∧ resolveToken witnessParams emptyEnv
          = jsOr witnessParams.TOKEN emptyEnv.TOKEN
      ∧ (jsTruthy witnessParams.PROJECT_COORDS = false →
          jsTruthy emptyEnv.PROJECT_COORDS = false →
          projectCoordsName ∈ missingFields witnessParams emptyEnv)
      ∧ (jsTruthy witnessParams.TOKEN = false → jsTruthy emptyEnv.TOKEN = false →
          tokenName ∈ missingFields witnessParams emptyEnv)
      ∧ (jsTruthy bodyWithCreds.NATIONALITY = true →
          resolveNationality bodyWithCreds witnessParams = bodyWithCreds.NATIONALITY)
      ∧ (jsTruthy bodyWithCreds.NATIONALITY = false →
          jsTruthy bodyWithCreds.nationality = true →
          resolveNationality bodyWithCreds witnessParams = bodyWithCreds.nationality)
      ∧ (jsTruthy bodyWithCreds.NATIONALITY = false →
          jsTruthy bodyWithCreds.nationality = false →
          jsTruthy witnessParams.NATIONALITY = true →
          resolveNationality bodyWithCreds witnessParams = witnessParams.NATIONALITY)
      ∧ (jsTruthy bodyWithCreds.NATIONALITY = false →
          jsTruthy bodyWithCreds.nationality = false →
          jsTruthy witnessParams.NATIONALITY = false →
          resolveNationality bodyWithCreds witnessParams = witnessParams.nationality) :=
  request_merge_semantics witnessParams bodyWithCreds emptyEnv 0 downOracle

/-- C10 counterexample: the webhook action's catch-all returns the thrown
error's message, not the generic minimal message — internal error detail
reaches the caller. -/
theorem webhook_error_detail_cex :
    webhookCatchResponse boomError = errorResponse 500 boomMsg
      ∧ (webhookCatchResponse boomError).body.error ≠ serverErrorMsg := by
  refine ⟨rfl, ?_⟩
  decide

/-- C10 amended: the renderer's catch-all — including the template-load
failure path — always returns the 500 error shape carrying only the generic
message; the webhook's catch-all returns 500 carrying the thrown error's own
message, falling back to the generic message only when the message is empty,
so its body equals the generic message only for an empty or already-generic
message.  Both catch-alls log the original error (logging is outside the
embedding). -/
theorem generic_error_responses (e : JsError) (deps : RendererDeps) (owPath : String)
    (nationality : Option String) (outcome : ProfileFetchOutcome)
    (hpath : strStartsWith (normalizeOwPath owPath) overlayNS = true)
    (htmpl : deps.template = none) :
    rendererCatchResponse e = errorResponse 500 serverErrorMsg
      ∧ webhookCatchResponse e = errorResponse 500 (jsOrStr e.message serverErrorMsg)
      ∧ ((webhookCatchResponse e).body.error = serverErrorMsg
          ↔ (e.message = emptyStr ∨ e.message = serverErrorMsg))
      ∧ (rendererMain deps owPath nationality outcome).response
          = RendererResult.errorShaped (errorResponse 500 serverErrorMsg) := by
  have hgate : (!(strStartsWith (normalizeOwPath owPath) overlayNS)) = false := by
    rw [hpath]
    rfl
  refine ⟨rfl, rfl, ?_, ?_⟩
  · by_cases hmsg : e.message = ""
    · simp [webhookCatchResponse, errorResponse, jsOrStr, hmsg, emptyStr]
    · simp [webhookCatchResponse, errorResponse, jsOrStr, hmsg, emptyStr]
  · cases outcome with
    | threw => simp [rendererMain, hgate]
    | response ok status statusText apiData =>
        cases ok with
        | false => simp [rendererMain, hgate, finishRender, htmpl]
        | true =>
            cases apiData with
            | none => simp [rendererMain, hgate]
            | some d =>
                cases hr : d.results with
                | none => simp [rendererMain, hgate, finishRender, htmpl, hr]
                | some l =>
                    cases l with
                    | nil => simp [rendererMain, hgate, finishRender, htmpl, hr]
                    | cons u t => simp [rendererMain, hgate, finishRender, htmpl, hr]

/-- Witness for the amended C10 at a concrete thrown error and a failing
template load. -/
theorem generic_error_responses_witness :
    rendererCatchResponse boomError = errorResponse 500 serverErrorMsg
      ∧ webhookCatchResponse boomError
          = errorResponse 500 (jsOrStr boomError.message serverErrorMsg)
      ∧ ((webhookCatchResponse boomError).body.error = serverErrorMsg
          ↔ (boomError.message = emptyStr ∨ boomError.message = serverErrorMsg))
      ∧ (rendererMain noTemplateDeps overlayPathEx none
            ProfileFetchOutcome.threw).response
          = RendererResult.errorShaped (errorResponse 500 serverErrorMsg) :=
  generic_error_responses boomError noTemplateDeps overlayPathEx none
    ProfileFetchOutcome.threw rfl rfl

end ByomDemo
